import Mathlib

/-
Shallow embedding of the authoritative state machine of src/server.js
(innovex-control). JavaScript numbers are modelled as rationals (ℚ);
`null`-able numeric fields are `Option ℚ`; JS truthiness of a numeric
field (`if (state.pendingClockMs)`) is `truthy`: present and nonzero.
Each socket.io handler becomes a pure function from the current state
(plus the `Date.now()` sample `now` and the decoded payload) to the next
state.  Emissions needed by the claims (the state-update payload and the
fake-press broadcast/ack) are modelled explicitly.
-/

namespace InnovexControl

/-- The global `state` record of src/server.js lines 17-24. -/
structure ClockVideoState where
  endTimestamp : Option ℚ
  pausedRemaining : Option ℚ
  running : Bool
  pendingClockMs : Option ℚ
  videoPlaying : Bool
  videoType : Option String
deriving DecidableEq, Repr

/-- Initial state: all fields cleared / false (src/server.js lines 17-24). -/
def initState : ClockVideoState :=
  { endTimestamp := none, pausedRemaining := none, running := false,
    pendingClockMs := none, videoPlaying := false, videoType := none }

/-- JS truthiness of a nullable numeric field: truthy iff present and nonzero. -/
def truthy : Option ℚ → Bool
  | none => false
  | some v => decide (v ≠ 0)

/-- `startClockFromMs(ms)` (src/server.js lines 33-42): overwrites all six
state fields. -/
def startClockFromMs (now ms : ℚ) : ClockVideoState :=
  { endTimestamp := some (now + ms), pausedRemaining := none, running := true,
    pendingClockMs := none, videoPlaying := false, videoType := none }

/-- `play-teaser` handler (lines 80-87): payload is `some ms` when
`data.ms` is a number, else `none` (default 24h). -/
def playTeaser (s : ClockVideoState) (payload : Option ℚ) : ClockVideoState :=
  { s with pendingClockMs := some (payload.getD (24 * 60 * 60 * 1000)),
           videoPlaying := true, videoType := some "teaser" }

/-- `play-video` handler (lines 90-95). -/
def playVideo (s : ClockVideoState) : ClockVideoState :=
  { s with videoPlaying := true, videoType := some "video" }

/-- `stop-video` handler (lines 113-118). -/
def stopVideo (s : ClockVideoState) : ClockVideoState :=
  { s with videoPlaying := false, videoType := none }

/-- `skip-video` handler (lines 98-110): `wasTeaser` is the JS truthy test
of videoType being the teaser tag and pendingClockMs being truthy. -/
def skipVideo (s : ClockVideoState) (now : ℚ) : ClockVideoState :=
  if s.videoType = some "teaser" ∧ truthy s.pendingClockMs = true then
    startClockFromMs now (s.pendingClockMs.getD 0)
  else
    { s with videoPlaying := false, videoType := none }

/-- `start-clock` handler (lines 121-133): payload `some ms` when
`durationMs` is a number, else default 24h; while a video is playing the
duration is queued into `pendingClockMs` instead of starting. -/
def startClock (s : ClockVideoState) (payload : Option ℚ) (now : ℚ) : ClockVideoState :=
  if s.videoPlaying then
    { s with pendingClockMs := some (payload.getD (24 * 60 * 60 * 1000)) }
  else startClockFromMs now (payload.getD (24 * 60 * 60 * 1000))

/-- `pause-clock` handler (lines 136-145): guarded by the JS truthy test
`state.running && state.endTimestamp`. -/
def pauseClock (s : ClockVideoState) (now : ℚ) : ClockVideoState :=
  if s.running = true ∧ truthy s.endTimestamp = true then
    { s with pausedRemaining := some (max 0 (s.endTimestamp.getD 0 - now)),
             endTimestamp := none, running := false }
  else s

/-- `resume-clock` handler (lines 148-156): `state.pausedRemaining != null`. -/
def resumeClock (s : ClockVideoState) (now : ℚ) : ClockVideoState :=
  match s.pausedRemaining with
  | some p => startClockFromMs now p
  | none => s

/-- `stop-clock` handler (lines 159-166). -/
def stopClock (s : ClockVideoState) : ClockVideoState :=
  { s with endTimestamp := none, pausedRemaining := none, running := false,
           pendingClockMs := none }

/-- Duration computed by the `set-remaining` handler (lines 171-178) from a
numeric payload: large values are milliseconds, small ones minutes,
floored then clamped: `Math.max(0, Math.floor(v) * 60 * 1000)`. -/
def setRemainingDuration (v : ℚ) : ℚ :=
  if v > 100000 then v else max 0 ((⌊v⌋ : ℚ) * 60 * 1000)

/-- `set-remaining` handler (lines 169-194): payload is `none` when
`minutesOrMs` is not a number (handler returns unchanged). -/
def setRemaining (s : ClockVideoState) (payload : Option ℚ) (now : ℚ) : ClockVideoState :=
  match payload with
  | none => s
  | some v =>
    if s.running then { s with endTimestamp := some (now + setRemainingDuration v) }
    else { s with pausedRemaining := some (setRemainingDuration v) }

/-- `sync-timestamp` handler (lines 197-217): payload is `none` when
`Number(timestamp)` is not finite; non-positive values are rejected;
while a video plays the timestamp is queued as a pending duration. -/
def syncTimestamp (s : ClockVideoState) (payload : Option ℚ) (now : ℚ) : ClockVideoState :=
  match payload with
  | none => s
  | some ts =>
    if ts ≤ 0 then s
    else if s.videoPlaying then
      { s with pendingClockMs := some (max 0 (ts - now)) }
    else
      { s with endTimestamp := some ts, pausedRemaining := none, running := true }

/-- `video-ended` handler (lines 220-233): clears the video flags, then the
JS truthy test `if (state.pendingClockMs)` decides whether to start. -/
def videoEnded (s : ClockVideoState) (now : ℚ) : ClockVideoState :=
  if truthy s.pendingClockMs = true then
    startClockFromMs now (s.pendingClockMs.getD 0)
  else
    { s with videoPlaying := false, videoType := none }

/-- `video-error` handler (lines 236-248): same logic as `video-ended`. -/
def videoError (s : ClockVideoState) (now : ℚ) : ClockVideoState :=
  if truthy s.pendingClockMs = true then
    startClockFromMs now (s.pendingClockMs.getD 0)
  else
    { s with videoPlaying := false, videoType := none }

/-- The inbound events of the protocol, with decoded numeric payloads
(`none` models a missing or non-numeric payload). -/
inductive Event
  | playTeaser (payload : Option ℚ)
  | playVideo
  | stopVideo
  | skipVideo
  | startClock (payload : Option ℚ)
  | pauseClock
  | resumeClock
  | stopClock
  | setRemaining (payload : Option ℚ)
  | syncTimestamp (payload : Option ℚ)
  | videoEnded
  | videoError
deriving DecidableEq, Repr

/-- Dispatch of one inbound event, `now` being the `Date.now()` sample of
that handler invocation. -/
def applyEvent (s : ClockVideoState) (e : Event) (now : ℚ) : ClockVideoState :=
  match e with
  | .playTeaser p => playTeaser s p
  | .playVideo => playVideo s
  | .stopVideo => stopVideo s
  | .skipVideo => skipVideo s now
  | .startClock p => startClock s p now
  | .pauseClock => pauseClock s now
  | .resumeClock => resumeClock s now
  | .stopClock => stopClock s
  | .setRemaining p => setRemaining s p now
  | .syncTimestamp p => syncTimestamp s p now
  | .videoEnded => videoEnded s now
  | .videoError => videoError s now

/-- Run a trace of timestamped events from a state. -/
def runEvents (s : ClockVideoState) : List (Event × ℚ) → ClockVideoState
  | [] => s
  | (e, t) :: tr => runEvents (applyEvent s e t) tr

/-- Outputs of one `fake-press` handler invocation (lines 54-77):
whether `io.emit` of the fan-out happened, and the private ack
`{ timestamp, socketId }` sent back to the originator (if any). -/
structure FakePressOut where
  broadcast : Bool
  ack : Option (ℚ × String)
deriving DecidableEq, Repr

/-- One `fake-press` invocation: `last` is the per-socket field
`_lastFakePress` (initially 0), `now` the `Date.now()` sample, `sid` the
socket id.
Returns the new `_lastFakePress` and the emissions.  Within 800 ms of the
last accepted press, the handler returns early: no broadcast, no ack, no
update of the timestamp. -/
def fakePress (last now : ℚ) (sid : String) : ℚ × FakePressOut :=
  if now - last < 800 then (last, { broadcast := false, ack := none })
  else (now, { broadcast := true, ack := some (now, sid) })

/-- Run a sequence of fake presses from one socket, collecting per-press
emissions. -/
def runFakePresses (sid : String) (last : ℚ) : List ℚ → ℚ × List FakePressOut
  | [] => (last, [])
  | t :: ts =>
    let r := fakePress last t sid
    let rest := runFakePresses sid r.1 ts
    (rest.1, r.2 :: rest.2)

/-- JSON-like values, to model the serialized socket.io payloads. -/
inductive JsVal
  | null
  | num (v : ℚ)
  | boolean (b : Bool)
  | str (s : String)
deriving DecidableEq, Repr

/-- Serialization of a nullable number field. -/
def jsNum : Option ℚ → JsVal
  | none => .null
  | some v => .num v

/-- Serialization of a nullable string field. -/
def jsStr : Option String → JsVal
  | none => .null
  | some s => .str s

/-- The object emitted under the event name state-update, both by
`broadcastState()` (lines 27-30, io.emit of the bare `state`) and to each
newly connected client (line 51, socket.emit of the bare `state`): the
`state` record itself, serialized field by field — and nothing else. -/
def statePayload (s : ClockVideoState) : List (String × JsVal) :=
  [("endTimestamp", jsNum s.endTimestamp),
   ("pausedRemaining", jsNum s.pausedRemaining),
   ("running", .boolean s.running),
   ("pendingClockMs", jsNum s.pendingClockMs),
   ("videoPlaying", .boolean s.videoPlaying),
   ("videoType", jsStr s.videoType)]

/-- The invariant of claim C3: `running` iff `endTimestamp` present
(stated as equality of booleans), and `pausedRemaining` present only
while not running. -/
def ClockInv (s : ClockVideoState) : Prop :=
  s.running = s.endTimestamp.isSome ∧
  (s.pausedRemaining.isSome = true → s.running = false)

/-- Pending-duration invariant of claim C7: `pendingClockMs`, when
present, is non-negative. -/
def PendingNonneg (s : ClockVideoState) : Prop :=
  ∀ v : ℚ, s.pendingClockMs = some v → 0 ≤ v

/-- An event whose numeric payload (if any) is non-negative. -/
def payloadNonneg : Event → Prop
  | .playTeaser (some v) => 0 ≤ v
  | .startClock (some v) => 0 ≤ v
  | .setRemaining (some v) => 0 ≤ v
  | .syncTimestamp (some v) => 0 ≤ v
  | _ => True

/-- A concrete state in which a plain video is playing. -/
def videoState : ClockVideoState :=
  { initState with videoPlaying := true, videoType := some "video" }

/-- A concrete teaser state whose pending clock value is the (falsy)
number 0. -/
def teaserZeroState : ClockVideoState :=
  { initState with videoPlaying := true, videoType := some "teaser",
                   pendingClockMs := some 0 }

/-- A concrete teaser state with a pending clock value of 5000 ms. -/
def teaserPendingState : ClockVideoState :=
  { initState with videoPlaying := true, videoType := some "teaser",
                   pendingClockMs := some 5000 }

/-- A concrete state whose clock is running with endTimestamp 0 — the JS
falsy edge of the pause-clock guard. -/
def zeroEndState : ClockVideoState :=
  { initState with running := true, endTimestamp := some 0 }

/-- A concrete running state ending at 10000 ms. -/
def runningState : ClockVideoState :=
  { initState with running := true, endTimestamp := some 10000 }

/-- Duration that claim C10 attributes to a numeric `set-remaining`
payload, written from the words of the claim: above 100000 the value is
taken as milliseconds unchanged, otherwise max 0 (floor v) times 60000
(clamped before the multiplication, where the code clamps after). -/
def claimedSetRemainingDuration (v : ℚ) : ℚ :=
  if v > 100000 then v else ((max 0 ⌊v⌋ : ℤ) : ℚ) * 60000

/-- C1 (counterexample): the claim asserts that `start-clock` starts the
clock regardless of whether a video is playing; but with a video playing
(videoPlaying true) the handler only queues the duration into
pendingClockMs: running stays false, no endTimestamp is set. -/
theorem startClock_during_video_cex :
    videoState.videoPlaying = true ∧
    (startClock videoState (some 5000) 100).running = false ∧
    (startClock videoState (some 5000) 100).endTimestamp = none ∧
    (startClock videoState (some 5000) 100).pendingClockMs = some 5000 := by
  refine ⟨rfl, ?_, ?_, ?_⟩ <;> norm_num [startClock, videoState, initState]

/-- C1 (amended): applying `start-clock` with payload ms (default 24h when
no numeric payload) starts the clock immediately — endTimestamp = now + ms,
running = true, pausedRemaining and pendingClockMs cleared, video flags
cleared — provided no video is currently playing; when a video is playing
the duration is instead queued into pendingClockMs and nothing else
changes. -/
theorem startClock_spec (s : ClockVideoState) (p : Option ℚ) (now : ℚ) :
    (s.videoPlaying = false →
      startClock s p now =
        { endTimestamp := some (now + p.getD (24 * 60 * 60 * 1000)),
          pausedRemaining := none, running := true, pendingClockMs := none,
          videoPlaying := false, videoType := none }) ∧
    (s.videoPlaying = true →
      startClock s p now = { s with pendingClockMs := some (p.getD (24 * 60 * 60 * 1000)) }) := by
  constructor <;> intro h <;> simp [startClock, startClockFromMs, h]

/-- C1 (witness): starting from the idle initial state with a 5000 ms
payload at now = 100 yields a running clock ending at 5100. -/
theorem startClock_spec_witness :
    startClock initState (some 5000) 100 =
      { endTimestamp := some 5100, pausedRemaining := none, running := true,
        pendingClockMs := none, videoPlaying := false, videoType := none } := by
  have h := (startClock_spec initState (some 5000) 100).1 rfl
  rw [h]; norm_num

/-- C2 (counterexample): the claim asserts that `video-ended` starts the
clock whenever pendingClockMs is present; but a present pendingClockMs of
0 is falsy in JS, so the handler only clears the video flags: running
stays false and pendingClockMs stays 0 (it is not even cleared). -/
theorem videoEnded_zero_pending_cex :
    teaserZeroState.pendingClockMs.isSome = true ∧
    (videoEnded teaserZeroState 100).running = false ∧
    (videoEnded teaserZeroState 100).pendingClockMs = some 0 := by
  refine ⟨rfl, ?_, ?_⟩ <;> norm_num [videoEnded, truthy, teaserZeroState, initState]

/-- C2 (amended): `video-ended` clears videoPlaying and videoType;
uniformly in the prior videoType, if pendingClockMs is present and
nonzero the clock starts from it (endTimestamp = now + pending, running
true, pending cleared); if pendingClockMs is absent or zero, only the
video flags change (a zero pendingClockMs is retained). -/
theorem videoEnded_spec (s : ClockVideoState) (now : ℚ) :
    (∀ v : ℚ, s.pendingClockMs = some v → v ≠ 0 →
      videoEnded s now =
        { endTimestamp := some (now + v), pausedRemaining := none, running := true,
          pendingClockMs := none, videoPlaying := false, videoType := none }) ∧
    ((s.pendingClockMs = none ∨ s.pendingClockMs = some 0) →
      videoEnded s now = { s with videoPlaying := false, videoType := none }) ∧
    (∀ vt vt2 : Option String,
      videoEnded { s with videoType := vt } now = videoEnded { s with videoType := vt2 } now) := by
  refine ⟨?_, ?_, ?_⟩
  · intro v hv hne
    simp [videoEnded, truthy, hv, hne, startClockFromMs]
  · rintro (h | h) <;> simp [videoEnded, truthy, h]
  · intro vt vt2
    cases hp : s.pendingClockMs with
    | none => simp [videoEnded, truthy, hp]
    | some v =>
      by_cases hv : v = 0 <;>
        simp [videoEnded, truthy, hp, hv, startClockFromMs]

/-- C2 (witness): a teaser state with pendingClockMs = 5000 at now = 100
transitions to a running clock ending at 5100 with pending cleared. -/
theorem videoEnded_spec_witness :
    videoEnded teaserPendingState 100 =
      { endTimestamp := some 5100, pausedRemaining := none, running := true,
        pendingClockMs := none, videoPlaying := false, videoType := none } := by
  have h := (videoEnded_spec teaserPendingState 100).1 5000 rfl (by norm_num)
  rw [h]; norm_num

/-- Any state produced by `startClockFromMs` satisfies the clock
invariant. -/
theorem clockInv_startClockFromMs (now ms : ℚ) :
    ClockInv (startClockFromMs now ms) :=
  ⟨rfl, fun hx => Bool.noConfusion hx⟩

/-- Every single event handler preserves the running/endTimestamp/
pausedRemaining invariant. -/
theorem clockInv_step (s : ClockVideoState) (e : Event) (now : ℚ)
    (h : ClockInv s) : ClockInv (applyEvent s e now) := by
  obtain ⟨h1, h2⟩ := h
  cases e with
  | playTeaser p => exact ⟨h1, h2⟩
  | playVideo => exact ⟨h1, h2⟩
  | stopVideo => exact ⟨h1, h2⟩
  | skipVideo =>
    show ClockInv (skipVideo s now)
    unfold skipVideo
    split
    · exact clockInv_startClockFromMs now _
    · exact ⟨h1, h2⟩
  | startClock p =>
    show ClockInv (startClock s p now)
    unfold startClock
    split
    · exact ⟨h1, h2⟩
    · exact clockInv_startClockFromMs now _
  | pauseClock =>
    show ClockInv (pauseClock s now)
    unfold pauseClock
    split
    · exact ⟨rfl, fun _ => rfl⟩
    · exact ⟨h1, h2⟩
  | resumeClock =>
    show ClockInv (resumeClock s now)
    unfold resumeClock
    split
    · exact clockInv_startClockFromMs now _
    · exact ⟨h1, h2⟩
  | stopClock => exact ⟨rfl, fun _ => rfl⟩
  | setRemaining p =>
    cases p with
    | none => exact ⟨h1, h2⟩
    | some v =>
      show ClockInv (setRemaining s (some v) now)
      unfold setRemaining
      simp only
      split
      · next hr => exact ⟨hr, h2⟩
      · next hr => exact ⟨h1, fun _ => by simpa using hr⟩
  | syncTimestamp p =>
    cases p with
    | none => exact ⟨h1, h2⟩
    | some v =>
      show ClockInv (syncTimestamp s (some v) now)
      unfold syncTimestamp
      simp only
      split
      · exact ⟨h1, h2⟩
      · split
        · exact ⟨h1, h2⟩
        · exact ⟨rfl, fun hx => Bool.noConfusion hx⟩
  | videoEnded =>
    show ClockInv (videoEnded s now)
    unfold videoEnded
    split
    · exact clockInv_startClockFromMs now _
    · exact ⟨h1, h2⟩
  | videoError =>
    show ClockInv (videoError s now)
    unfold videoError
    split
    · exact clockInv_startClockFromMs now _
    · exact ⟨h1, h2⟩

/-- The invariant propagates along any event trace. -/
theorem clockInv_run (tr : List (Event × ℚ)) (s : ClockVideoState)
    (h : ClockInv s) : ClockInv (runEvents s tr) := by
  induction tr generalizing s with
  | nil => exact h
  | cons et tr ih => exact ih _ (clockInv_step _ _ _ h)

/-- C3: in every state reachable from the initial all-cleared state by any
sequence of inbound events, running = true iff endTimestamp is present
and pausedRemaining is present only when running = false; moreover every
event handler preserves this invariant. -/
theorem clock_running_invariant :
    (∀ tr : List (Event × ℚ), ClockInv (runEvents initState tr)) ∧
    (∀ (s : ClockVideoState) (e : Event) (now : ℚ),
      ClockInv s → ClockInv (applyEvent s e now)) :=
  ⟨fun tr => clockInv_run tr initState (by simp [ClockInv, initState]), clockInv_step⟩

/-- C3 (witness): the invariant holds after a concrete start-clock event,
and the step form applies to the initial state. -/
theorem clock_running_invariant_witness :
    ClockInv (applyEvent initState (Event.startClock (some 5000)) 100) :=
  clock_running_invariant.2 initState (Event.startClock (some 5000)) 100
    (by simp [ClockInv, initState])

/-- C4 (counterexample): the claim asserts that `sync-timestamp` with a
positive numeric payload always sets endTimestamp and running with no
other precondition; but while a video is playing the handler instead
queues max 0 (ts - now) into pendingClockMs: running stays false and no
endTimestamp is set. -/
theorem syncTimestamp_during_video_cex :
    videoState.videoPlaying = true ∧ (0 : ℚ) < 5000 ∧
    (syncTimestamp videoState (some 5000) 100).running = false ∧
    (syncTimestamp videoState (some 5000) 100).endTimestamp = none ∧
    (syncTimestamp videoState (some 5000) 100).pendingClockMs = some 4900 := by
  refine ⟨rfl, by norm_num, ?_, ?_, ?_⟩ <;>
    norm_num [syncTimestamp, videoState, initState]

/-- C4 (amended): `sync-timestamp` with a positive numeric payload sets
endTimestamp = absoluteMs, clears pausedRemaining and sets running = true
provided no video is playing; while a video plays it instead sets
pendingClockMs = max 0 (absoluteMs - now) and changes nothing else; a
non-numeric or non-positive payload leaves the state unchanged. -/
theorem syncTimestamp_spec (s : ClockVideoState) (now : ℚ) :
    (∀ v : ℚ, 0 < v → s.videoPlaying = false →
      syncTimestamp s (some v) now =
        { s with endTimestamp := some v, pausedRemaining := none, running := true }) ∧
    (∀ v : ℚ, 0 < v → s.videoPlaying = true →
      syncTimestamp s (some v) now = { s with pendingClockMs := some (max 0 (v - now)) }) ∧
    syncTimestamp s none now = s ∧
    (∀ v : ℚ, v ≤ 0 → syncTimestamp s (some v) now = s) := by
  refine ⟨?_, ?_, rfl, ?_⟩
  · intro v hv hvid
    simp [syncTimestamp, not_le.mpr hv, hvid]
  · intro v hv hvid
    simp [syncTimestamp, not_le.mpr hv, hvid]
  · intro v hv
    simp [syncTimestamp, hv]

/-- C4 (witness): syncing the idle initial state to absolute time 5000
yields a running clock with endTimestamp 5000. -/
theorem syncTimestamp_spec_witness :
    syncTimestamp initState (some 5000) 100 =
      { initState with endTimestamp := some 5000, pausedRemaining := none,
                       running := true } :=
  (syncTimestamp_spec initState 100).1 5000 (by norm_num) rfl

/-- C5 (counterexample): the claim quantifies over every state with
running = true and endTimestamp present; with endTimestamp = 0 (present
but falsy in JS) the pause-clock guard fails, pause and resume are both
no-ops, and the final endTimestamp is 0 rather than the original plus
(t2 - t1) = 5. -/
theorem pauseResume_zero_end_cex :
    zeroEndState.running = true ∧ zeroEndState.endTimestamp.isSome = true ∧
    (0 : ℚ) ≤ 0 - 0 ∧
    (resumeClock (pauseClock zeroEndState 0) 5).endTimestamp = some 0 ∧
    some (0 : ℚ) ≠ some ((0 : ℚ) + (5 - 0)) := by
  refine ⟨rfl, rfl, by norm_num, ?_, by norm_num⟩
  norm_num [pauseClock, resumeClock, truthy, zeroEndState, initState]

/-- C5 (amended): for every state with running = true and a present,
nonzero endTimestamp e with e - t1 ≥ 0, pausing at t1 and resuming at t2
(no events in between) yields running = true and endTimestamp =
e + (t2 - t1); in particular t2 = t1 restores e exactly. -/
theorem pauseResume_roundtrip (s : ClockVideoState) (e t1 t2 : ℚ)
    (hrun : s.running = true) (he : s.endTimestamp = some e) (hne : e ≠ 0)
    (hge : 0 ≤ e - t1) :
    (resumeClock (pauseClock s t1) t2).running = true ∧
    (resumeClock (pauseClock s t1) t2).endTimestamp = some (e + (t2 - t1)) := by
  have hc : s.running = true ∧ truthy s.endTimestamp = true :=
    ⟨hrun, by simp [truthy, he, hne]⟩
  rw [pauseClock, if_pos hc]
  have hmax : max 0 (s.endTimestamp.getD 0 - t1) = e - t1 := by
    rw [he]
    simpa using max_eq_right hge
  simp only [resumeClock, hmax, startClockFromMs, Option.some.injEq]
  exact ⟨by trivial, by ring⟩

/-- C5 (witness): a running clock ending at 10000, paused at t1 = 2000 and
resumed at t2 = 3000, ends at 11000 = 10000 + (3000 - 2000). -/
theorem pauseResume_roundtrip_witness :
    (resumeClock (pauseClock runningState 2000) 3000).running = true ∧
    (resumeClock (pauseClock runningState 2000) 3000).endTimestamp =
      some (10000 + (3000 - 2000)) :=
  pauseResume_roundtrip runningState 10000 2000 3000 rfl rfl
    (by norm_num) (by norm_num)

/-- After an accepted press at time t, every press less than 800 ms later
is dropped: no broadcast, no ack, and the last-press timestamp stays t. -/
theorem runFakePresses_all_dropped (sid : String) (t : ℚ) (ts : List ℚ)
    (hwin : ∀ u ∈ ts, u - t < 800) :
    runFakePresses sid t ts = (t, ts.map fun _ => { broadcast := false, ack := none }) := by
  induction ts with
  | nil => rfl
  | cons u us ih =>
    have hu : u - t < 800 := hwin u (by simp)
    have hrest := ih fun v hv => hwin v (by simp [hv])
    simp [runFakePresses, fakePress, if_pos hu, hrest]

/-- C6 (counterexample): the claim asserts that any two presses from one
peer less than 800 ms apart result in the second being dropped and the
first broadcasting; but in the trace with presses at 10000, 10500 and
10900 (from initial last-press 0), the pair at 10500 and 10900 is only
400 ms apart, yet the press at 10900 is accepted (it broadcasts and is
acknowledged) while the press at 10500 produced nothing. -/
theorem fakePress_pair_cex :
    (10900 : ℚ) - 10500 < 800 ∧
    (runFakePresses "s1" 0 [10000, 10500, 10900]).2.map FakePressOut.broadcast =
      [true, false, true] ∧
    (runFakePresses "s1" 0 [10000, 10500, 10900]).2.map FakePressOut.ack =
      [some (10000, "s1"), none, some (10900, "s1")] := by
  refine ⟨by norm_num, ?_, ?_⟩ <;> norm_num [runFakePresses, fakePress]

/-- C6 (amended): for every peer, a fake press that is accepted (its
receive time t is at least 800 ms past the last accepted press) produces
exactly one fan-out broadcast and exactly one private ack carrying its
timestamp t and the peer identifier, and every subsequent press from that
peer strictly less than 800 ms after t is dropped: no broadcast, no ack,
and no change to the last-press timestamp. -/
theorem fakePress_debounce (sid : String) (last t : ℚ) (ts : List ℚ)
    (hacc : 800 ≤ t - last) (hwin : ∀ u ∈ ts, u - t < 800) :
    fakePress last t sid = (t, { broadcast := true, ack := some (t, sid) }) ∧
    runFakePresses sid t ts = (t, ts.map fun _ => { broadcast := false, ack := none }) := by
  constructor
  · rw [fakePress, if_neg (by linarith)]
  · exact runFakePresses_all_dropped sid t ts hwin

/-- C6 (witness): a press at 10000 (last accepted 0) is accepted and
acknowledged, and a follow-up press at 10500 is dropped. -/
theorem fakePress_debounce_witness :
    fakePress 0 10000 "s1" = (10000, { broadcast := true, ack := some (10000, "s1") }) ∧
    runFakePresses "s1" 10000 [10500] =
      (10000, [10500].map fun _ => { broadcast := false, ack := none }) :=
  fakePress_debounce "s1" 0 10000 [10500] (by norm_num)
    (by intro u hu; simp at hu; subst hu; norm_num)

/-- Any state produced by `startClockFromMs` has no pending clock value
at all. -/
theorem pendingNonneg_startClockFromMs (now ms : ℚ) :
    PendingNonneg (startClockFromMs now ms) :=
  fun _ hv => Option.noConfusion hv

/-- Each event handler keeps a present pendingClockMs non-negative, as
long as the numeric payload of the event (if any) is non-negative. -/
theorem pendingNonneg_step (s : ClockVideoState) (e : Event) (now : ℚ)
    (h : PendingNonneg s) (hp : payloadNonneg e) :
    PendingNonneg (applyEvent s e now) := by
  have h24 : (0 : ℚ) ≤ 24 * 60 * 60 * 1000 := by norm_num
  cases e with
  | playTeaser p =>
    intro v hv
    have hveq : p.getD (24 * 60 * 60 * 1000) = v := Option.some.inj hv
    subst hveq
    cases p with
    | none => exact h24
    | some w => exact hp
  | playVideo => exact h
  | stopVideo => exact h
  | skipVideo =>
    show PendingNonneg (skipVideo s now)
    unfold skipVideo
    split
    · exact pendingNonneg_startClockFromMs now _
    · exact h
  | startClock p =>
    show PendingNonneg (startClock s p now)
    unfold startClock
    split
    · intro v hv
      have hveq : p.getD (24 * 60 * 60 * 1000) = v := Option.some.inj hv
      subst hveq
      cases p with
      | none => exact h24
      | some w => exact hp
    · exact pendingNonneg_startClockFromMs now _
  | pauseClock =>
    show PendingNonneg (pauseClock s now)
    unfold pauseClock
    split
    · exact h
    · exact h
  | resumeClock =>
    show PendingNonneg (resumeClock s now)
    unfold resumeClock
    split
    · exact pendingNonneg_startClockFromMs now _
    · exact h
  | stopClock => exact fun _ hv => Option.noConfusion hv
  | setRemaining p =>
    cases p with
    | none => exact h
    | some w =>
      show PendingNonneg (setRemaining s (some w) now)
      simp only [setRemaining]
      by_cases hr : s.running = true
      · rw [if_pos hr]
        exact fun v hv => h v hv
      · rw [if_neg hr]
        exact fun v hv => h v hv
  | syncTimestamp p =>
    cases p with
    | none => exact h
    | some w =>
      show PendingNonneg (syncTimestamp s (some w) now)
      simp only [syncTimestamp]
      by_cases hw : w ≤ 0
      · rw [if_pos hw]
        exact h
      · rw [if_neg hw]
        by_cases hvid : s.videoPlaying = true
        · rw [if_pos hvid]
          intro v hv
          have hveq : max 0 (w - now) = v := Option.some.inj hv
          subst hveq
          exact le_max_left 0 _
        · rw [if_neg hvid]
          exact fun v hv => h v hv
  | videoEnded =>
    show PendingNonneg (videoEnded s now)
    unfold videoEnded
    split
    · exact pendingNonneg_startClockFromMs now _
    · exact h
  | videoError =>
    show PendingNonneg (videoError s now)
    unfold videoError
    split
    · exact pendingNonneg_startClockFromMs now _
    · exact h

/-- The pending invariant propagates along any trace of events whose
payloads are non-negative. -/
theorem pendingNonneg_run (tr : List (Event × ℚ)) (s : ClockVideoState)
    (h : PendingNonneg s) (hp : ∀ p ∈ tr, payloadNonneg p.1) :
    PendingNonneg (runEvents s tr) := by
  induction tr generalizing s with
  | nil => exact h
  | cons et tr ih =>
    exact ih _ (pendingNonneg_step s et.1 et.2 h (hp et (by simp)))
      fun p hmem => hp p (by simp [hmem])

/-- C7 (counterexample): the claim asserts non-negativity of a present
pendingClockMs in every reachable state even under negative numeric
payloads; but a single play-teaser event with payload -5 reaches a state
with pendingClockMs = -5 < 0. -/
theorem pendingClockMs_negative_cex :
    (runEvents initState [(Event.playTeaser (some (-5)), 0)]).pendingClockMs = some (-5) ∧
    (-5 : ℚ) < 0 := by
  exact ⟨rfl, by norm_num⟩

/-- C7 (amended): in every state reachable from the initial all-cleared
state by events whose numeric payloads are all non-negative,
pendingClockMs, whenever present, is non-negative. -/
theorem pendingClockMs_nonneg (tr : List (Event × ℚ))
    (hp : ∀ p ∈ tr, payloadNonneg p.1) :
    PendingNonneg (runEvents initState tr) :=
  pendingNonneg_run tr initState (fun v hv => by simp [initState] at hv) hp

/-- C7 (witness): after a play-teaser with payload 5000 the pending value
is non-negative. -/
theorem pendingClockMs_nonneg_witness :
    PendingNonneg (runEvents initState [(Event.playTeaser (some 5000), 0)]) :=
  pendingClockMs_nonneg [(Event.playTeaser (some 5000), 0)]
    (by intro p hmem; simp at hmem; subst hmem; norm_num [payloadNonneg])

/-- C8: resume-clock with no pausedRemaining, and set-remaining with a
non-numeric payload, both leave the state bit-for-bit unchanged (the
handlers are total functions: no error is ever raised and no partial
mutation occurs). -/
theorem unmet_precondition_noop (s : ClockVideoState) (t1 t2 : ℚ)
    (h : s.pausedRemaining = none) :
    resumeClock s t1 = s ∧ setRemaining s none t2 = s := by
  constructor
  · unfold resumeClock
    rw [h]
  · rfl

/-- C8 (witness): both no-ops at the initial state. -/
theorem unmet_precondition_noop_witness :
    resumeClock initState 100 = initState ∧ setRemaining initState none 100 = initState :=
  unmet_precondition_noop initState 100 100 rfl

/-- C9 (counterexample): the claim asserts every state-update payload
carries a serverTime field; the payload actually emitted for the initial
state (both by broadcastState and as the private snapshot on connect) has
no serverTime key. -/
theorem statePayload_serverTime_cex :
    "serverTime" ∉ (statePayload initState).map Prod.fst := by
  simp [statePayload]

/-- C9 (amended): every state-update payload — the broadcast after each
mutation and the private snapshot to a new connection — is exactly the
full six-field ClockVideoState snapshot, with no serverTime field. -/
theorem statePayload_fields (s : ClockVideoState) :
    (statePayload s).map Prod.fst =
      ["endTimestamp", "pausedRemaining", "running", "pendingClockMs",
       "videoPlaying", "videoType"] ∧
    (statePayload s).lookup "serverTime" = none :=
  ⟨rfl, rfl⟩

/-- The duration the set-remaining handler computes equals the duration
claim C10 describes: clamping before or after the positive scale factor
60000 gives the same value. -/
theorem setRemainingDuration_eq_claimed (v : ℚ) :
    setRemainingDuration v = claimedSetRemainingDuration v := by
  unfold setRemainingDuration claimedSetRemainingDuration
  split
  · rfl
  · push_cast
    rcases le_total ((⌊v⌋ : ℚ)) 0 with hle | hle
    · rw [max_eq_left (by nlinarith), max_eq_left hle, zero_mul]
    · rw [max_eq_right (by nlinarith), max_eq_right hle]
      ring

/-- C10: a numeric set-remaining payload v above 100000 is applied as v
milliseconds unchanged, otherwise as max 0 (floor v) times 60000; the
duration goes to endTimestamp = now + duration when running and to
pausedRemaining otherwise, and running never changes. -/
theorem setRemaining_payload_rule (s : ClockVideoState) (v now : ℚ) :
    (setRemaining s (some v) now).running = s.running ∧
    (s.running = true →
      setRemaining s (some v) now =
        { s with endTimestamp := some (now + claimedSetRemainingDuration v) }) ∧
    (s.running = false →
      setRemaining s (some v) now =
        { s with pausedRemaining := some (claimedSetRemainingDuration v) }) := by
  refine ⟨?_, ?_, ?_⟩
  · unfold setRemaining
    simp only
    split <;> rfl
  · intro hr
    unfold setRemaining
    simp only
    rw [if_pos (by simp [hr]), setRemainingDuration_eq_claimed]
  · intro hr
    unfold setRemaining
    simp only
    rw [if_neg (by simp [hr]), setRemainingDuration_eq_claimed]

/-- C10 (witness): payload 15/2 (7.5 minutes, not running) stores
pausedRemaining = max 0 (floor 7.5) times 60000. -/
theorem setRemaining_payload_rule_witness :
    setRemaining initState (some (15 / 2)) 0 =
      { initState with pausedRemaining := some (claimedSetRemainingDuration (15 / 2)) } :=
  (setRemaining_payload_rule initState (15 / 2) 0).2.2 rfl

end InnovexControl
